import Mathlib

/-
Verification of the credential-resolution / secret-storage / redaction /
HTTP-pipeline core of the npmctl command-line client.

Python strings are modelled as `List Char` (one element per code point,
matching Python's `len` and slicing semantics).  Python's dynamically typed
values (the payloads the redaction engine and the HTTP pipeline traffic in)
are modelled by the inductive type `PyVal`: mappings keep their insertion
order as association lists, exactly as Python dicts do.

Stdlib/third-party collaborators (json.loads, json.dumps, str(), the keyring
backend, httpx) are modelled at their call boundary: `jsonLoads`/`jsonDumps`
implement the JSON subset the application exchanges (objects, arrays,
strings, integers, booleans, null), the keyring backend is a pair of lookup
outcomes, and the network is an `Except`-valued response parameter together
with an explicit count of send attempts.
-/

namespace NpmCtl

/-- A Python string: a sequence of code points. -/
abbrev Str := List Char

/-- A dynamically typed Python value as exchanged by the client:
scalars, strings, dicts (insertion-ordered), lists and tuples. -/
inductive PyVal where
  | none
  | bool (b : Bool)
  | int (n : Int)
  | str (s : Str)
  | dict (kvs : List (Str × PyVal))
  | list (xs : List PyVal)
  | tuple (xs : List PyVal)

instance : Inhabited PyVal := ⟨.none⟩

/-- Python truthiness (`bool(v)`): None, False, 0, empty string and empty
containers are falsy. -/
def pyTruthy : PyVal → Bool
  | .none => false
  | .bool b => b
  | .int n => n != 0
  | .str s => !s.isEmpty
  | .dict kvs => !kvs.isEmpty
  | .list xs => !xs.isEmpty
  | .tuple xs => !xs.isEmpty

/-- Truthiness of an `Optional` value (`None` is falsy). -/
def optTruthy : Option PyVal → Bool
  | Option.none => false
  | some v => pyTruthy v

/-- Truthiness of an `Optional[str]` (`None` and `""` are falsy). -/
def strOptTruthy : Option Str → Bool
  | Option.none => false
  | some s => !s.isEmpty

/-- Python `a or b` on optional values: `a` if truthy, else `b`. -/
def pyOr (a b : Option PyVal) : Option PyVal :=
  if optTruthy a then a else b

/-- Python `d.get(key)` over an insertion-ordered dict. -/
def dict_get : List (Str × PyVal) → Str → Option PyVal
  | [], _ => Option.none
  | (k, v) :: rest, key => if k = key then some v else dict_get rest key

/-- Python `c.lower()` (per-character lowering). -/
def toLowerStr (s : Str) : Str := s.map Char.toLower

/-- Python `needle in hay` substring containment. -/
def strContains (hay needle : Str) : Bool :=
  if List.isPrefixOf needle hay then true
  else
    match hay with
    | [] => false
    | _ :: rest => strContains rest needle

/-! ## debug.py : masking and the redaction engine -/

/-- `SENSITIVE_KEYS` from debug.py. -/
def SENSITIVE_KEYS : List Str :=
  ["authorization".toList, "token".toList, "secret".toList,
   "password".toList, "dns_provider_credentials".toList,
   "cloudflare_api_token".toList]

/-- `mask_secret` from debug.py:
`"***"` for empty or length ≤ 8, else first 4 + `"..."` + last 4. -/
def mask_secret (value : Str) : Str :=
  if value = [] ∨ value.length ≤ 8 then "***".toList
  else value.take 4 ++ "...".toList ++ value.drop (value.length - 4)

/-- `_is_sensitive_key` from debug.py: the lowered key hint contains one of
the denylist terms as a substring. -/
def _is_sensitive_key (key_hint : Str) : Bool :=
  SENSITIVE_KEYS.any (fun secret_key => strContains (toLowerStr key_hint) secret_key)

mutual

/-- `redact_value` from debug.py: mask a subtree under a sensitive key hint,
recurse through dicts (each entry keyed by its own key), lists and tuples
(reusing the current hint), and pass scalars through. -/
def redact_value (v : PyVal) (key_hint : Str) : PyVal :=
  if _is_sensitive_key key_hint then
    match v with
    | .str s => .str (mask_secret s)
    | _ => .str "***".toList
  else
    match v with
    | .dict kvs => .dict (redactEntries kvs)
    | .list xs => .list (redactItems xs key_hint)
    | .tuple xs => .tuple (redactItems xs key_hint)
    | v => v

/-- Dict-comprehension leg of `redact_value`. -/
def redactEntries : List (Str × PyVal) → List (Str × PyVal)
  | [] => []
  | (k, v) :: rest => (k, redact_value v k) :: redactEntries rest

/-- Sequence-comprehension leg of `redact_value`. -/
def redactItems : List PyVal → Str → List PyVal
  | [], _ => []
  | x :: xs, key_hint => redact_value x key_hint :: redactItems xs key_hint

end

/-! ## The JSON collaborator (Python `json.loads` / `json.dumps` / `str`)

The application reads and writes JSON through the standard library.  We model
the subset it exchanges: objects, arrays, strings (with the standard escape
sequences), integers, booleans and null; numbers with a fraction or exponent
are outside the modelled subset and fail to parse.  Parsing is strict: any
trailing non-whitespace input is a failure, exactly as `json.loads` raises. -/

/-- The two brace code points, kept out of literals. -/
def lbrace : Char := Char.ofNat 123

/-- Closing brace code point. -/
def rbrace : Char := Char.ofNat 125

/-- JSON whitespace (space, tab, newline, carriage return). -/
def jsonWs (c : Char) : Bool :=
  c = ' ' || c = '\t' || c = '\n' || c = '\r'

/-- Drop leading JSON whitespace. -/
def skipWs (cs : Str) : Str := cs.dropWhile jsonWs

/-- Value of one hex digit. -/
def hexVal (c : Char) : Option Nat :=
  if c.isDigit then some (c.toNat - '0'.toNat)
  else if 'a' ≤ c ∧ c ≤ 'f' then some (c.toNat - 'a'.toNat + 10)
  else if 'A' ≤ c ∧ c ≤ 'F' then some (c.toNat - 'A'.toNat + 10)
  else Option.none

/-- One JSON string escape sequence (after the backslash). -/
def parseEscape : Str → Option (Char × Str)
  | [] => Option.none
  | e :: rest =>
    if e = '"' then some ('"', rest)
    else if e = '\\' then some ('\\', rest)
    else if e = '/' then some ('/', rest)
    else if e = 'n' then some ('\n', rest)
    else if e = 't' then some ('\t', rest)
    else if e = 'r' then some ('\r', rest)
    else if e = 'b' then some (Char.ofNat 8, rest)
    else if e = 'f' then some (Char.ofNat 12, rest)
    else if e = 'u' then
      match rest with
      | a :: b :: c :: d :: r =>
        match hexVal a, hexVal b, hexVal c, hexVal d with
        | some x, some y, some z, some w =>
          some (Char.ofNat (((x * 16 + y) * 16 + z) * 16 + w), r)
        | _, _, _, _ => Option.none
      | _ => Option.none
    else Option.none

/-- Digits to the natural number they denote (base 10). -/
def digsToNat (ds : Str) : Nat :=
  ds.foldl (fun acc c => acc * 10 + (c.toNat - '0'.toNat)) 0

/-- A JSON natural-number literal: digits, no leading zero, and no fraction
or exponent (floats are outside the modelled subset). -/
def parseNat (cs : Str) : Option (Nat × Str) :=
  let digs := cs.takeWhile Char.isDigit
  let rest := cs.dropWhile Char.isDigit
  if digs = [] then Option.none
  else if 1 < digs.length ∧ digs.head? = some '0' then Option.none
  else
    match rest with
    | c :: _ =>
      if c = '.' ∨ c = 'e' ∨ c = 'E' then Option.none
      else some (digsToNat digs, rest)
    | [] => some (digsToNat digs, rest)

/-- A JSON integer literal with optional sign. -/
def parseNumber : Str → Option (PyVal × Str)
  | '-' :: rest => (parseNat rest).map (fun p => (.int (-(p.1 : Int)), p.2))
  | cs => (parseNat cs).map (fun p => (.int (p.1 : Int), p.2))

/-- `json.loads` builds Python dicts: a repeated key overwrites the earlier
value in place, a fresh key is appended (insertion order preserved). -/
def insertKV : List (Str × PyVal) → Str → PyVal → List (Str × PyVal)
  | [], k, v => [(k, v)]
  | (k', v') :: rest, k, v =>
    if k' = k then (k, v) :: rest else (k', v') :: insertKV rest k v

/-- A literal keyword (`null`, `true`, `false`) tail. -/
def expectChars (lit cs : Str) : Option Str :=
  if List.isPrefixOf lit cs then some (cs.drop lit.length) else Option.none

mutual

/-- One JSON value (fuel-indexed recursive-descent). -/
def parseValue : Nat → Str → Option (PyVal × Str)
  | 0, _ => Option.none
  | Nat.succ fuel, cs =>
    match skipWs cs with
    | [] => Option.none
    | c :: rest =>
      if c = 'n' then (expectChars "ull".toList rest).map (fun r => (.none, r))
      else if c = 't' then (expectChars "rue".toList rest).map (fun r => (.bool true, r))
      else if c = 'f' then (expectChars "alse".toList rest).map (fun r => (.bool false, r))
      else if c = '"' then (parseStringBody fuel rest).map (fun p => (.str p.1, p.2))
      else if c = '[' then parseItemsStart fuel rest
      else if c = lbrace then parseMembersStart fuel rest
      else if c = '-' ∨ c.isDigit then parseNumber (c :: rest)
      else Option.none

/-- JSON string body after the opening quote. -/
def parseStringBody : Nat → Str → Option (Str × Str)
  | 0, _ => Option.none
  | Nat.succ fuel, cs =>
    match cs with
    | [] => Option.none
    | '"' :: rest => some ([], rest)
    | '\\' :: rest =>
      match parseEscape rest with
      | Option.none => Option.none
      | some (ch, r) => (parseStringBody fuel r).map (fun p => (ch :: p.1, p.2))
    | c :: rest =>
      if c.toNat < 32 then Option.none
      else (parseStringBody fuel rest).map (fun p => (c :: p.1, p.2))

/-- JSON array after the opening bracket. -/
def parseItemsStart : Nat → Str → Option (PyVal × Str)
  | 0, _ => Option.none
  | Nat.succ fuel, cs =>
    match skipWs cs with
    | ']' :: rest => some (.list [], rest)
    | cs' => parseItems fuel cs' []

/-- Comma-separated array elements. -/
def parseItems : Nat → Str → List PyVal → Option (PyVal × Str)
  | 0, _, _ => Option.none
  | Nat.succ fuel, cs, acc =>
    match parseValue fuel cs with
    | Option.none => Option.none
    | some (v, r) =>
      match skipWs r with
      | ',' :: r2 => parseItems fuel r2 (acc ++ [v])
      | ']' :: r2 => some (.list (acc ++ [v]), r2)
      | _ => Option.none

/-- JSON object after the opening brace. -/
def parseMembersStart : Nat → Str → Option (PyVal × Str)
  | 0, _ => Option.none
  | Nat.succ fuel, cs =>
    match skipWs cs with
    | [] => Option.none
    | c :: rest =>
      if c = rbrace then some (.dict [], rest)
      else parseMembers fuel (c :: rest) []

/-- Comma-separated `"key": value` object members. -/
def parseMembers : Nat → Str → List (Str × PyVal) → Option (PyVal × Str)
  | 0, _, _ => Option.none
  | Nat.succ fuel, cs, acc =>
    match skipWs cs with
    | '"' :: rest =>
      match parseStringBody fuel rest with
      | Option.none => Option.none
      | some (key, r1) =>
        match skipWs r1 with
        | ':' :: r2 =>
          match parseValue fuel r2 with
          | Option.none => Option.none
          | some (v, r3) =>
            match skipWs r3 with
            | ',' :: r4 => parseMembers fuel r4 (insertKV acc key v)
            | c :: r4 =>
              if c = rbrace then some (.dict (insertKV acc key v), r4)
              else Option.none
            | [] => Option.none
        | _ => Option.none
    | _ => Option.none

end

/-- `json.loads`: parse one value, then require only whitespace to remain.
The fuel is generous: every recursive layer is entered at least one consumed
character apart, so `4 * length + 16` never exhausts on well-formed input. -/
def jsonLoads (cs : Str) : Option PyVal :=
  match parseValue (4 * cs.length + 16) cs with
  | some (v, rest) => if skipWs rest = [] then some v else Option.none
  | Option.none => Option.none

/-! ## Python `str()` / `repr()` and `json.dumps(·, indent=2)` -/

/-- Decimal digits of a natural number. -/
def natToStr (n : Nat) : Str := Nat.toDigits 10 n

/-- Decimal rendering of an integer. -/
def intToStr : Int → Str
  | Int.ofNat n => natToStr n
  | Int.negSucc n => '-' :: natToStr (n + 1)

/-- Join with a separator (Python `", ".join`). -/
def joinSep (sep : Str) (parts : List Str) : Str :=
  List.intercalate sep parts

mutual

/-- Python `repr(v)` (string contents rendered between single quotes;
the payloads in scope contain no quotes needing escaping). -/
def pyRepr : PyVal → Str
  | .none => "None".toList
  | .bool true => "True".toList
  | .bool false => "False".toList
  | .int n => intToStr n
  | .str s => '\'' :: (s ++ ['\''])
  | .dict kvs => lbrace :: (joinSep ", ".toList (pyReprEntries kvs) ++ [rbrace])
  | .list xs => '[' :: (joinSep ", ".toList (pyReprItems xs) ++ [']'])
  | .tuple [x] => '(' :: (pyRepr x ++ ",)".toList)
  | .tuple xs => '(' :: (joinSep ", ".toList (pyReprItems xs) ++ [')'])

/-- `repr` of each dict entry, `'key': value`. -/
def pyReprEntries : List (Str × PyVal) → List Str
  | [] => []
  | (k, v) :: rest =>
    (pyRepr (.str k) ++ ": ".toList ++ pyRepr v) :: pyReprEntries rest

/-- `repr` of each sequence element. -/
def pyReprItems : List PyVal → List Str
  | [] => []
  | x :: rest => pyRepr x :: pyReprItems rest

end

/-- Python `str(v)`: identity on strings, `repr` otherwise. -/
def pyStr : PyVal → Str
  | .str s => s
  | v => pyRepr v

/-- Two-space indentation at a nesting level. -/
def indentOf (level : Nat) : Str := List.replicate (2 * level) ' '

/-- JSON string escaping for `json.dumps` (ensure_ascii is off; the
mandatory escapes are the quote, the backslash and the control characters
used by the application). -/
def jsonEscapeChar (c : Char) : Str :=
  if c = '"' then "\\\"".toList
  else if c = '\\' then "\\\\".toList
  else if c = '\n' then "\\n".toList
  else if c = '\t' then "\\t".toList
  else if c = '\r' then "\\r".toList
  else [c]

/-- Escape a whole string body. -/
def jsonEscape (s : Str) : Str := s.flatMap jsonEscapeChar

mutual

/-- `json.dumps(v, indent=2, ensure_ascii=False)` at a nesting level
(tuples are serialized as arrays, exactly as `json.dumps` does). -/
def jsonDumps : PyVal → Nat → Str
  | .none, _ => "null".toList
  | .bool true, _ => "true".toList
  | .bool false, _ => "false".toList
  | .int n, _ => intToStr n
  | .str s, _ => '"' :: (jsonEscape s ++ ['"'])
  | .dict [], _ => [lbrace, rbrace]
  | .dict kvs, level =>
    lbrace :: '\n' ::
      (joinSep ",\n".toList (jsonDumpEntries kvs (level + 1)) ++
        '\n' :: (indentOf level ++ [rbrace]))
  | .list [], _ => "[]".toList
  | .list xs, level =>
    '[' :: '\n' ::
      (joinSep ",\n".toList (jsonDumpItems xs (level + 1)) ++
        '\n' :: (indentOf level ++ [']']))
  | .tuple [], _ => "[]".toList
  | .tuple xs, level =>
    '[' :: '\n' ::
      (joinSep ",\n".toList (jsonDumpItems xs (level + 1)) ++
        '\n' :: (indentOf level ++ [']']))

/-- Indented `"key": value` lines of an object. -/
def jsonDumpEntries : List (Str × PyVal) → Nat → List Str
  | [], _ => []
  | (k, v) :: rest, level =>
    (indentOf level ++ '"' :: (jsonEscape k ++ "\": ".toList) ++ jsonDumps v level)
      :: jsonDumpEntries rest level

/-- Indented element lines of an array. -/
def jsonDumpItems : List PyVal → Nat → List Str
  | [], _ => []
  | x :: rest, level =>
    (indentOf level ++ jsonDumps x level) :: jsonDumpItems rest level

end

/-! ## debug.py : preview -/

/-- `_to_text` from debug.py: structured values through
`json.dumps(value, indent=2, ensure_ascii=False)`, everything else through
`str(value)`. -/
def _to_text : PyVal → Str
  | .dict kvs => jsonDumps (.dict kvs) 0
  | .list xs => jsonDumps (.list xs) 0
  | .tuple xs => jsonDumps (.tuple xs) 0
  | v => pyStr v

/-- `preview` from debug.py: the serialized text unchanged when it fits the
limit, else the first `limit` characters plus a truncation annotation
counting the hidden characters. -/
def preview (value : PyVal) (limit : Nat) : Str :=
  let text := _to_text value
  if text.length ≤ limit then text
  else
    text.take limit ++ "... [truncated ".toList ++
      natToStr (text.length - limit) ++ " chars]".toList

/-! ## secrets_store.py

The platform vault is a collaborator: one lookup in a namespace either
raises a `KeyringError` (modelled as the error text) or returns
`Optional[str]`.  `get_secret` consults the current namespace `npmctl`
first and the legacy namespace `npm-cli` second; the availability flag
models whether the `keyring` integration could be imported at all. -/

/-- Outcome of one `keyring.get_password(namespace, key)` call. -/
abbrev VaultRead := Except Str (Option Str)

/-- Error taxonomy of the application (`NPMError` raise sites, plus the
structured `ApiError` carried by a failed HTTP response). -/
inductive NPMErr where
  | missingBaseUrl
  | missingToken
  | missingSecret
  | keyringUnavailable
  | keyringFailure (msg : Str)
  | transportFailure (msg : Str)
  | apiFailure (status : Nat) (method : Str) (path : Str) (message : Str)
      (request_id : Option Str) (lines : List Str)

/-- `_keyring_backend_hint` from secrets_store.py: the remediation hint when
the vault's own error text reports no available backend. -/
def _keyring_backend_hint (excMsg : Str) : Str :=
  if strContains (toLowerStr excMsg) "no recommended backend was available".toList then
    (" Hint: install and run an OS keyring backend (Secret Service/KWallet), " ++
     "or install `keyrings.alt` in the npmctl environment " ++
     "(for example `~/.npmctl/venv/bin/pip install keyrings.alt`).").toList
  else []

/-- `get_secret` from secrets_store.py: require the vault integration, read
the current namespace, return its value when non-empty, else return the
legacy namespace's lookup result; any `KeyringError` becomes a typed
failure enriched with the backend hint. -/
def get_secret (keyring_available : Bool) (current legacy : VaultRead) :
    Except NPMErr (Option Str) :=
  if ¬ keyring_available then .error .keyringUnavailable
  else
    match current with
    | .error m =>
      .error (.keyringFailure ("Failed to read secret from keyring: ".toList ++
        m ++ _keyring_backend_hint m))
    | .ok value =>
      if strOptTruthy value then .ok value
      else
        match legacy with
        | .error m =>
          .error (.keyringFailure ("Failed to read secret from keyring: ".toList ++
            m ++ _keyring_backend_hint m))
        | .ok w => .ok w

/-- `get_login_info` from secrets_store.py: read the stored login record,
treat an absent/empty record, malformed JSON, or a non-object top level as
no data; propagate vault errors. -/
def get_login_info (keyring_available : Bool) (current legacy : VaultRead) :
    Except NPMErr (List (Str × PyVal)) :=
  match get_secret keyring_available current legacy with
  | .error e => .error e
  | .ok raw =>
    match raw with
    | Option.none => .ok []
    | some r =>
      if r = [] then .ok []
      else
        match jsonLoads r with
        | Option.none => .ok []
        | some (.dict kvs) => .ok kvs
        | some _ => .ok []

/-! ## config.py : credential resolution -/

/-- `_load_keyring_login_info` from config.py: a typed secret-store failure
while reading the stored login record is logged and treated as an empty
record. -/
def _load_keyring_login_info (keyring_available : Bool) (current legacy : VaultRead) :
    List (Str × PyVal) :=
  match get_login_info keyring_available current legacy with
  | .ok info => info
  | .error _ => []

/-- `_load_json_file` from config.py: a missing file, malformed JSON or a
non-object top level is no data, not an error.  `content` is the file's
text, `Option.none` when the path does not exist. -/
def _load_json_file (content : Option Str) : List (Str × PyVal) :=
  match content with
  | Option.none => []
  | some text =>
    match jsonLoads text with
    | some (.dict kvs) => kvs
    | _ => []

/-- `_load_legacy_login_info` from config.py: the first of the two
well-known paths whose load yields a non-empty object wins. -/
def _load_legacy_login_info (npmctlConfig legacyConfig : Option Str) :
    List (Str × PyVal) :=
  let loaded := _load_json_file npmctlConfig
  if ¬ loaded.isEmpty then loaded
  else
    let loaded2 := _load_json_file legacyConfig
    if ¬ loaded2.isEmpty then loaded2 else []

/-- `resolve_base_url_and_token` from config.py.  Explicit arguments, the
`NPM_BASE_URL`/`NPM_TOKEN` environment variables, the vault-stored login
record and the legacy file config are layered with Python `or`
(first truthy wins).  The vault is presented as the availability flag and
the two namespace lookups for the `login_info` key; the legacy files as
their optional contents. -/
def resolve_base_url_and_token
    (base_url token : Option Str) (require_token : Bool)
    (env_base_url env_token : Option Str)
    (keyring_available : Bool) (current legacy : VaultRead)
    (npmctlConfig legacyConfig : Option Str) :
    Except NPMErr (PyVal × Option PyVal) :=
  let keyring_login := _load_keyring_login_info keyring_available current legacy
  let legacy_login := _load_legacy_login_info npmctlConfig legacyConfig
  let resolved_base_url :=
    pyOr (base_url.map .str) (pyOr (env_base_url.map .str)
      (pyOr (dict_get keyring_login "base_url".toList)
        (dict_get legacy_login "base_url".toList)))
  match resolved_base_url with
  | Option.none => .error .missingBaseUrl
  | some bu =>
    if ¬ pyTruthy bu then .error .missingBaseUrl
    else
      let resolved_token :=
        pyOr (token.map .str) (pyOr (env_token.map .str)
          (pyOr (dict_get keyring_login "token".toList)
            (dict_get legacy_login "token".toList)))
      if require_token ∧ ¬ optTruthy resolved_token then .error .missingToken
      else .ok (bu, resolved_token)

/-! ## client.py : the HTTP request pipeline

The network is a collaborator: `_send_request` either raises an
`httpx.HTTPError` (modelled as the exception text) or returns a response.
A response carries the status code, the headers and the raw body text;
`response.json()` is `jsonLoads` of that body.  `NPMClient_request`
additionally reports how many send attempts were made, so that
"fails before any network I/O" is a statement about the count. -/

/-- An httpx response as the client consumes it. -/
structure Response where
  status_code : Nat
  headers : List (Str × Str)
  body : Str

/-- httpx header lookup is case-insensitive. -/
def headers_get : List (Str × Str) → Str → Option Str
  | [], _ => Option.none
  | (k, v) :: rest, key =>
    if toLowerStr k = toLowerStr key then some v else headers_get rest key

/-- `NPMClient._headers`: always content-type; a (truthy) token adds the
bearer authorization header; no token with authentication required is an
immediate typed failure. -/
def _headers (token : Option Str) (auth_required : Bool) :
    Except NPMErr (List (Str × Str)) :=
  let base := [("Content-Type".toList, "application/json".toList)]
  match token with
  | some t =>
    if t = [] then
      if auth_required then .error .missingToken else .ok base
    else .ok (base ++ [("Authorization".toList, "Bearer ".toList ++ t)])
  | Option.none =>
    if auth_required then .error .missingToken else .ok base

/-- `NPMClient._parse_payload`: structured decoding with verbatim raw-text
fallback. -/
def _parse_payload (response : Response) : PyVal :=
  match jsonLoads response.body with
  | some v => v
  | Option.none => .str response.body

/-- `NPMClient._error_message`: prefer a nested error-object message field,
else the top-level message field, else the stringified body.  Python
returns the raw (possibly non-string) message value when truthy. -/
def _error_message (payload : PyVal) : PyVal :=
  match payload with
  | .dict kvs =>
    match dict_get kvs "error".toList with
    | some (.dict ekvs) =>
      (match dict_get ekvs "message".toList with
       | some v => if pyTruthy v then v else .str (pyStr (.dict ekvs))
       | Option.none => .str (pyStr (.dict ekvs)))
    | _ =>
      (match dict_get kvs "message".toList with
       | some v => if pyTruthy v then v else .str (pyStr (.dict kvs))
       | Option.none => .str (pyStr (.dict kvs)))
  | v => .str (pyStr v)

/-- Python `base_url.rstrip("/")`. -/
def rstripSlashes (s : Str) : Str :=
  (s.reverse.dropWhile (fun c => c = '/')).reverse

/-- `NPMClient._raise_api_error` as the data it raises: status, method,
path, the extracted human message, the request id, and the rendered lines
(full redacted payloads in debug mode, else the rerun tip). -/
def _raise_api_error (debug : Bool) (method path : Str) (response : Response)
    (payload : PyVal) (json_body : Option PyVal) : NPMErr :=
  let message := _error_message payload
  let request_id := headers_get response.headers "x-request-id".toList
  let lines0 : List Str :=
    ["API ".toList ++ natToStr response.status_code ++ [' '] ++ method ++
      [' '] ++ path ++ ": ".toList ++ pyStr message]
  let lines1 :=
    match request_id with
    | some rid =>
      if rid = [] then lines0 else lines0 ++ ["Request ID: ".toList ++ rid]
    | Option.none => lines0
  let lines2 :=
    if debug then
      let withResp := lines1 ++ ["Response payload:".toList,
        preview (redact_value payload "payload".toList) 1600]
      match json_body with
      | some b => withResp ++ ["Request payload:".toList,
          preview (redact_value b "json_body".toList) 1600]
      | Option.none => withResp
    else
      lines1 ++
        ["Tip: rerun with --debug (or set NPM_CLI_DEBUG=1) for full logs.".toList]
  .apiFailure response.status_code method path (pyStr message) request_id lines2

/-- `NPMClient._request`: build headers (failing here performs no send),
send once, parse the body, and classify: status ≥ 400 raises the structured
API failure, anything else returns the parsed payload.  The second
component counts send attempts. -/
def NPMClient_request (debug : Bool) (base_url : Str) (token : Option Str)
    (method path : Str) (json_body : Option PyVal) (auth_required : Bool)
    (net : Except Str Response) : Except NPMErr PyVal × Nat :=
  match _headers token auth_required with
  | .error e => (.error e, 0)
  | .ok _hdrs =>
    let _url := rstripSlashes base_url ++ path
    match net with
    | .error m =>
      (.error (.transportFailure ("HTTP request failed: ".toList ++ m)), 1)
    | .ok response =>
      let payload := _parse_payload response
      if 400 ≤ response.status_code then
        (.error (_raise_api_error debug method path response payload json_body), 1)
      else (.ok payload, 1)

/-! ## Shared lemmas -/

theorem isEmpty_false_of_ne {l : Str} (h : l ≠ []) : l.isEmpty = false := by
  cases l with
  | nil => exact absurd rfl h
  | cons a t => rfl

theorem mask_secret_short {s : Str} (h : s.length ≤ 8) :
    mask_secret s = "***".toList := by
  unfold mask_secret
  exact if_pos (Or.inr h)

theorem mask_secret_long {s : Str} (h : 8 < s.length) :
    mask_secret s = s.take 4 ++ "...".toList ++ s.drop (s.length - 4) := by
  unfold mask_secret
  apply if_neg
  rintro (h1 | h2)
  · subst h1; simp at h
  · omega

theorem mask_secret_long_parts {s : Str} (h : 8 < s.length) :
    (s.take 4).length = 4 ∧ (s.drop (s.length - 4)).length = 4 ∧
      (mask_secret s).length = 11 := by
  have h4 : (s.take 4).length = 4 := by
    rw [List.length_take]; omega
  have hd : (s.drop (s.length - 4)).length = 4 := by
    rw [List.length_drop]; omega
  refine ⟨h4, hd, ?_⟩
  rw [mask_secret_long h]
  simp [List.length_append, h4, hd]

theorem mask_take4 {s : Str} (h4 : (s.take 4).length = 4) :
    (s.take 4 ++ "...".toList ++ s.drop (s.length - 4)).take 4 = s.take 4 := by
  rw [List.append_assoc]
  exact List.take_left' h4

theorem mask_drop7 {s : Str} (h7 : (s.take 4 ++ "...".toList).length = 7) :
    (s.take 4 ++ "...".toList ++ s.drop (s.length - 4)).drop 7 =
      s.drop (s.length - 4) :=
  List.drop_left' h7

theorem mask_drop4 {s : Str} (h4 : (s.take 4).length = 4) :
    (s.take 4 ++ "...".toList ++ s.drop (s.length - 4)).drop 4 =
      "...".toList ++ s.drop (s.length - 4) := by
  rw [List.append_assoc]
  exact List.drop_left' h4

theorem mask_secret_idem (s : Str) :
    mask_secret (mask_secret s) = mask_secret s := by
  by_cases h : s.length ≤ 8
  · rw [mask_secret_short h]
    exact mask_secret_short (by decide)
  · push_neg at h
    obtain ⟨h4, hd, h11⟩ := mask_secret_long_parts h
    have h7 : (s.take 4 ++ "...".toList).length = 7 := by
      rw [List.length_append, h4]; rfl
    rw [mask_secret_long h] at h11 ⊢
    rw [mask_secret_long (by omega : 8 <
        (s.take 4 ++ "...".toList ++ s.drop (s.length - 4)).length)]
    rw [h11]
    have hsub : (11 : Nat) - 4 = 7 := rfl
    rw [hsub, mask_take4 h4, mask_drop7 h7]

/-- The shapes one masking pass can produce: the fixed 3-character mask or
`first4 ++ "..." ++ last4`.  These are exactly the strings masking fixes. -/
def is_mask_marker (s : Str) : Prop :=
  s = "***".toList ∨ (s.length = 11 ∧ (s.drop 4).take 3 = "...".toList)

instance (s : Str) : Decidable (is_mask_marker s) := by
  unfold is_mask_marker
  infer_instance

/-- A value is an already-masked leftover only when it is a marker string. -/
def val_is_mask_marker : PyVal → Prop
  | .str s => is_mask_marker s
  | _ => False

instance (v : PyVal) : Decidable (val_is_mask_marker v) :=
  match v with
  | .str s => (inferInstance : Decidable (is_mask_marker s))
  | .none => (inferInstance : Decidable False)
  | .bool _ => (inferInstance : Decidable False)
  | .int _ => (inferInstance : Decidable False)
  | .dict _ => (inferInstance : Decidable False)
  | .list _ => (inferInstance : Decidable False)
  | .tuple _ => (inferInstance : Decidable False)

theorem mask_secret_fixed_marker {s : Str} (h : mask_secret s = s) :
    is_mask_marker s := by
  by_cases hl : s.length ≤ 8
  · left
    rw [← h, mask_secret_short hl]
  · push_neg at hl
    obtain ⟨h4, hd, h11⟩ := mask_secret_long_parts hl
    have e1 : s = s.take 4 ++ "...".toList ++ s.drop (s.length - 4) := by
      conv_lhs => rw [← h, mask_secret_long hl]
    right
    constructor
    · rw [← h]; exact h11
    · conv_lhs => rw [e1]
      rw [mask_drop4 h4]
      exact List.take_left' (by rfl)

theorem mask_secret_marker_fixed : mask_secret "***".toList = "***".toList := by
  decide

mutual

theorem redact_value_idem_aux (v : PyVal) (k : Str) :
    redact_value (redact_value v k) k = redact_value v k := by
  by_cases h : _is_sensitive_key k = true
  · cases v with
    | str s => simp [redact_value, h, mask_secret_idem]
    | none => simp [redact_value, h]; decide
    | bool b => simp [redact_value, h]; decide
    | int n => simp [redact_value, h]; decide
    | dict kvs => simp [redact_value, h]; decide
    | list xs => simp [redact_value, h]; decide
    | tuple xs => simp [redact_value, h]; decide
  · cases v with
    | str s => simp [redact_value, h]
    | none => simp [redact_value, h]
    | bool b => simp [redact_value, h]
    | int n => simp [redact_value, h]
    | dict kvs => simp [redact_value, h, redactEntries_idem_aux kvs]
    | list xs => simp [redact_value, h, redactItems_idem_aux xs k]
    | tuple xs => simp [redact_value, h, redactItems_idem_aux xs k]

theorem redactEntries_idem_aux (kvs : List (Str × PyVal)) :
    redactEntries (redactEntries kvs) = redactEntries kvs := by
  match kvs with
  | [] => simp [redactEntries]
  | (k, v) :: rest =>
    simp [redactEntries, redact_value_idem_aux v k, redactEntries_idem_aux rest]

theorem redactItems_idem_aux (xs : List PyVal) (k : Str) :
    redactItems (redactItems xs k) k = redactItems xs k := by
  match xs with
  | [] => simp [redactItems]
  | x :: rest =>
    simp [redactItems, redact_value_idem_aux x k, redactItems_idem_aux rest k]

end

/-! ## Claim theorems -/

/-- Claim C2: for every structured value `x` (any composition of mappings,
sequences, tuples and scalars) and every key hint `k`, redaction is
idempotent: `redact(redact(x, k), k) = redact(x, k)`. -/
theorem redact_value_idempotent (x : PyVal) (k : Str) :
    redact_value (redact_value x k) k = redact_value x k :=
  redact_value_idem_aux x k

/-- Claim C3: for every key hint that case-insensitively contains a denylist
term and every original value at that key that is not already a mask
marker, one redaction pass changes the value. -/
theorem redact_sensitive_key_changes_value (k : Str) (v : PyVal)
    (hs : _is_sensitive_key k = true) (hm : ¬ val_is_mask_marker v) :
    redact_value v k ≠ v := by
  cases v with
  | str s =>
    simp only [redact_value, hs, if_true, if_pos]
    intro h
    injection h with h'
    exact hm (mask_secret_fixed_marker h')
  | none => simp [redact_value, hs]
  | bool b => simp [redact_value, hs]
  | int n => simp [redact_value, hs]
  | dict kvs => simp [redact_value, hs]
  | list xs => simp [redact_value, hs]
  | tuple xs => simp [redact_value, hs]

/-- Witness for C3 at a concrete sensitive key and secret. -/
theorem redact_sensitive_key_changes_value_witness :
    redact_value (.str "supersecretvalue".toList) "token".toList ≠
      .str "supersecretvalue".toList :=
  redact_sensitive_key_changes_value "token".toList
    (.str "supersecretvalue".toList) (by decide) (by decide)

/-- Claim C4: masking sends strings of length at most 8 to the fixed
3-character mask; for longer strings the output keeps the first 4 and last
4 characters with a visible ellipsis in between. -/
theorem mask_secret_shape (s : Str) :
    (s.length ≤ 8 → mask_secret s = "***".toList ∧ (mask_secret s).length = 3) ∧
    (8 < s.length →
      (mask_secret s).length = 11 ∧
      (mask_secret s).take 4 = s.take 4 ∧
      (mask_secret s).drop ((mask_secret s).length - 4) = s.drop (s.length - 4) ∧
      ((mask_secret s).drop 4).take 3 = "...".toList) := by
  constructor
  · intro h
    refine ⟨mask_secret_short h, ?_⟩
    rw [mask_secret_short h]
    rfl
  · intro h
    obtain ⟨h4, hd, h11⟩ := mask_secret_long_parts h
    have h7 : (s.take 4 ++ "...".toList).length = 7 := by
      rw [List.length_append, h4]; rfl
    refine ⟨h11, ?_, ?_, ?_⟩
    · rw [mask_secret_long h, mask_take4 h4]
    · rw [h11, mask_secret_long h]
      have hsub : (11 : Nat) - 4 = 7 := rfl
      rw [hsub, mask_drop7 h7]
    · rw [mask_secret_long h, mask_drop4 h4]
      exact List.take_left' (by rfl)

/-- Witness for C4 at a short and a long concrete string. -/
theorem mask_secret_shape_witness :
    (mask_secret "short".toList = "***".toList ∧
      (mask_secret "short".toList).length = 3) ∧
    ((mask_secret "abcdefghij".toList).length = 11 ∧
      (mask_secret "abcdefghij".toList).take 4 = "abcdefghij".toList.take 4 ∧
      (mask_secret "abcdefghij".toList).drop ((mask_secret "abcdefghij".toList).length - 4) =
        "abcdefghij".toList.drop ("abcdefghij".toList.length - 4) ∧
      ((mask_secret "abcdefghij".toList).drop 4).take 3 = "...".toList) :=
  ⟨(mask_secret_shape "short".toList).1 (by decide),
   (mask_secret_shape "abcdefghij".toList).2 (by decide)⟩

/-- Claim C9: `preview` returns the serialized text unchanged when it fits
the limit; otherwise the first `limit` characters followed by an annotation
counting exactly `length - limit` hidden characters. -/
theorem preview_truncation (v : PyVal) (limit : Nat) :
    ((_to_text v).length ≤ limit → preview v limit = _to_text v) ∧
    (limit < (_to_text v).length →
      preview v limit =
        (_to_text v).take limit ++ "... [truncated ".toList ++
          natToStr ((_to_text v).length - limit) ++ " chars]".toList ∧
      ((_to_text v).take limit).length = limit) := by
  constructor
  · intro h
    unfold preview
    exact if_pos h
  · intro h
    constructor
    · unfold preview
      exact if_neg (by omega)
    · rw [List.length_take]
      omega

/-- Witness for C9: a 2000-character serialized value at limit 1600 keeps
1600 characters and reports 400 hidden; a short value passes unchanged. -/
theorem preview_truncation_witness :
    (preview (.str (List.replicate 2000 'a')) 1600 =
      (_to_text (.str (List.replicate 2000 'a'))).take 1600 ++
        "... [truncated ".toList ++
        natToStr ((_to_text (.str (List.replicate 2000 'a'))).length - 1600) ++
        " chars]".toList ∧
    ((_to_text (.str (List.replicate 2000 'a'))).take 1600).length = 1600) ∧
    preview (.str "ok".toList) 1600 = _to_text (.str "ok".toList) := by
  have hstr : _to_text (PyVal.str (List.replicate 2000 'a')) =
      List.replicate 2000 'a' := rfl
  have hlen : (_to_text (PyVal.str (List.replicate 2000 'a'))).length = 2000 := by
    rw [hstr, List.length_replicate]
  exact ⟨(preview_truncation (.str (List.replicate 2000 'a')) 1600).2 (by omega),
    (preview_truncation (.str "ok".toList) 1600).1 (by decide)⟩

/-- Counterexample to claim C8 as stated: with the current namespace absent
and the legacy namespace holding the empty string, there is no non-empty
hit, yet `get_secret` returns the legacy empty string rather than absent. -/
theorem get_secret_c8_counterexample :
    get_secret true (.ok Option.none) (.ok (some ([] : Str))) =
      .ok (some ([] : Str)) ∧
    get_secret true (.ok Option.none) (.ok (some ([] : Str))) ≠
      .ok Option.none := by
  constructor
  · rfl
  · intro h
    injection h with h1
    exact Option.noConfusion h1

/-- Claim C8 (amended): the current namespace wins when it yields a
non-empty value; when it yields absent or empty, the legacy lookup's result
is returned verbatim (even when that is an empty string). -/
theorem get_secret_precedence (cv lv : Str) (c l : Option Str)
    (hc : c = Option.none ∨ c = some []) :
    (cv ≠ [] →
      get_secret true (.ok (some cv)) (.ok (some lv)) = .ok (some cv)) ∧
    get_secret true (.ok c) (.ok l) = .ok l := by
  constructor
  · intro hcv
    simp [get_secret, strOptTruthy, isEmpty_false_of_ne hcv]
  · rcases hc with h | h <;> subst h <;> rfl

/-- Witness for C8 (amended): both namespaces hold different non-empty
values and the current one is returned; an absent current value falls back
to the legacy value. -/
theorem get_secret_precedence_witness :
    (get_secret true (.ok (some "cur".toList)) (.ok (some "leg".toList)) =
      .ok (some "cur".toList)) ∧
    get_secret true (.ok Option.none) (.ok (some "leg".toList)) =
      .ok (some "leg".toList) := by
  have h := get_secret_precedence "cur".toList "leg".toList Option.none
    (some "leg".toList) (Or.inl rfl)
  exact ⟨h.1 (by decide), h.2⟩

/-- The built headers when a non-empty token is configured. -/
theorem headers_with_token {t : Str} (ht : t ≠ []) (auth_required : Bool) :
    _headers (some t) auth_required =
      .ok [("Content-Type".toList, "application/json".toList),
           ("Authorization".toList, "Bearer ".toList ++ t)] := by
  simp [_headers, ht]

/-- Claim C5: with no token configured and authentication required, the
pipeline fails with the missing-token error and performs zero network
sends, whatever the network would have answered; with a token present the
built headers are exactly content-type plus the bearer authorization
header. -/
theorem client_missing_token_gate (debug : Bool) (base method path : Str)
    (body : Option PyVal) (net : Except Str Response) (tok : Option Str)
    (t : Str) (auth_required : Bool)
    (hno : tok = Option.none ∨ tok = some []) (ht : t ≠ []) :
    NPMClient_request debug base tok method path body true net =
      (.error .missingToken, 0) ∧
    _headers (some t) auth_required =
      .ok [("Content-Type".toList, "application/json".toList),
           ("Authorization".toList, "Bearer ".toList ++ t)] := by
  constructor
  · rcases hno with h | h <;> subst h <;> rfl
  · exact headers_with_token ht auth_required

/-- Witness for C5 at a concrete request. -/
theorem client_missing_token_gate_witness :
    NPMClient_request false "http://npm".toList Option.none "POST".toList
      "/tokens".toList Option.none true
      (.ok ⟨200, [], "\x7b\x7d".toList⟩) = (.error .missingToken, 0) ∧
    _headers (some "tok123".toList) true =
      .ok [("Content-Type".toList, "application/json".toList),
           ("Authorization".toList, "Bearer ".toList ++ "tok123".toList)] :=
  client_missing_token_gate false "http://npm".toList "POST".toList
    "/tokens".toList Option.none (.ok ⟨200, [], "\x7b\x7d".toList⟩)
    Option.none "tok123".toList true (Or.inl rfl) (by decide)

/-- Claim C7: a body that fails JSON decoding falls back to the raw text
verbatim; any response with status below 400 returns the parsed body
without raising; in particular a 200 response with non-JSON body `OK`
returns the raw text `OK`. -/
theorem parse_payload_fallback (response : Response) (tok : Str)
    (debug : Bool) (base method path : Str) (body : Option PyVal)
    (ht : tok ≠ []) (hnj : jsonLoads response.body = Option.none)
    (hst : response.status_code < 400) :
    _parse_payload response = .str response.body ∧
    NPMClient_request debug base (some tok) method path body true
      (.ok response) = (.ok (_parse_payload response), 1) ∧
    NPMClient_request debug base (some tok) method path body true
      (.ok ⟨200, [], "OK".toList⟩) = (.ok (.str "OK".toList), 1) := by
  refine ⟨?_, ?_, ?_⟩
  · unfold _parse_payload
    rw [hnj]
  · simp only [NPMClient_request, headers_with_token ht]
    simp [if_neg (by omega : ¬ 400 ≤ response.status_code)]
  · simp only [NPMClient_request, headers_with_token ht]
    rfl

/-- Witness for C7 at the concrete 200/`OK` response. -/
theorem parse_payload_fallback_witness :
    _parse_payload ⟨200, [], "OK".toList⟩ = .str "OK".toList ∧
    NPMClient_request false "http://npm".toList (some "tok123".toList)
      "GET".toList "/ping".toList Option.none true
      (.ok ⟨200, [], "OK".toList⟩) = (.ok (.str "OK".toList), 1) ∧
    NPMClient_request false "http://npm".toList (some "tok123".toList)
      "GET".toList "/ping".toList Option.none true
      (.ok ⟨200, [], "OK".toList⟩) = (.ok (.str "OK".toList), 1) :=
  parse_payload_fallback ⟨200, [], "OK".toList⟩ "tok123".toList false
    "http://npm".toList "GET".toList "/ping".toList Option.none
    (by decide) (by rfl) (by decide)

/-- The human message carried by a raised API failure, if any. -/
def apiMessage : Except NPMErr PyVal → Option Str
  | .error (.apiFailure _ _ _ message _ _) => some message
  | _ => Option.none

theorem pyTruthy_str {A : Str} (hA : A ≠ []) : pyTruthy (.str A) = true := by
  simp [pyTruthy, isEmpty_false_of_ne hA]

/-- Counterexample to claim C6 as stated: for the failure body
`{"error": {}, "message": "top"}` the raised API failure carries the
stringified nested error object `{}` — the code never falls back to the
top-level message field once the error field is a mapping. -/
theorem api_error_message_c6_counterexample :
    apiMessage (NPMClient_request false "http://npm".toList
      (some "tok123".toList) "POST".toList "/nginx/proxy-hosts".toList
      Option.none true (.ok ⟨404, [],
        "\x7b\"error\": \x7b\x7d, \"message\": \"top\"\x7d".toList⟩)).1 =
      some [lbrace, rbrace] ∧
    apiMessage (NPMClient_request false "http://npm".toList
      (some "tok123".toList) "POST".toList "/nginx/proxy-hosts".toList
      Option.none true (.ok ⟨404, [],
        "\x7b\"error\": \x7b\x7d, \"message\": \"top\"\x7d".toList⟩)).1 ≠
      some "top".toList := by
  have hrepr : pyStr (.dict ([] : List (Str × PyVal))) = [lbrace, rbrace] := by
    simp [pyStr, pyRepr, pyReprEntries, joinSep,
      show ([',', ' '] : Str).intercalate [] = [] from rfl]
  have h1 : apiMessage (NPMClient_request false "http://npm".toList
      (some "tok123".toList) "POST".toList "/nginx/proxy-hosts".toList
      Option.none true (.ok ⟨404, [],
        "\x7b\"error\": \x7b\x7d, \"message\": \"top\"\x7d".toList⟩)).1 =
      some (pyStr (.dict ([] : List (Str × PyVal)))) := rfl
  constructor
  · rw [h1, hrepr]
  · rw [h1, hrepr]
    decide

/-- Claim C6 (corrected): the API-failure message is extracted from the
parsed body as follows — when the body is a mapping whose error field is
itself a mapping, the message is that error object's message field when
truthy, else the stringified error object (the top level is never consulted
in this case); when the body is a mapping without a dict-valued error
field, the top-level message field when truthy, else the stringified body;
when the body is not a mapping, the stringified body.  A 404 with body
`{"error":{"message":"Host not found"}}` yields exactly `Host not found`. -/
theorem api_error_message_amended
    (kvs1 ekvs1 kvs2 kvs4 ekvs4 kvs5 ekvs5 kvs6 kvs7 : List (Str × PyVal))
    (m1 m2 m7 : Str) (v w5 e7 : PyVal)
    (debug : Bool) (base method path : Str) (body : Option PyVal)
    (tok : Str) :
    (dict_get kvs1 "error".toList = some (.dict ekvs1) →
      dict_get ekvs1 "message".toList = some (.str m1) → m1 ≠ [] →
      _error_message (.dict kvs1) = .str m1) ∧
    (dict_get kvs2 "error".toList = Option.none →
      dict_get kvs2 "message".toList = some (.str m2) → m2 ≠ [] →
      _error_message (.dict kvs2) = .str m2) ∧
    ((∀ kvs', v ≠ .dict kvs') → _error_message v = .str (pyStr v)) ∧
    (dict_get kvs4 "error".toList = some (.dict ekvs4) →
      dict_get ekvs4 "message".toList = Option.none →
      _error_message (.dict kvs4) = .str (pyStr (.dict ekvs4))) ∧
    (dict_get kvs5 "error".toList = some (.dict ekvs5) →
      dict_get ekvs5 "message".toList = some w5 → pyTruthy w5 = false →
      _error_message (.dict kvs5) = .str (pyStr (.dict ekvs5))) ∧
    (dict_get kvs6 "error".toList = Option.none →
      dict_get kvs6 "message".toList = Option.none →
      _error_message (.dict kvs6) = .str (pyStr (.dict kvs6))) ∧
    (dict_get kvs7 "error".toList = some e7 → (∀ kv, e7 ≠ .dict kv) →
      dict_get kvs7 "message".toList = some (.str m7) → m7 ≠ [] →
      _error_message (.dict kvs7) = .str m7) ∧
    (tok ≠ [] →
      apiMessage (NPMClient_request debug base (some tok) method path body
        true (.ok ⟨404, [],
          "\x7b\"error\": \x7b\"message\": \"Host not found\"\x7d\x7d".toList⟩)).1 =
        some "Host not found".toList) := by
  refine ⟨?_, ?_, ?_, ?_, ?_, ?_, ?_, ?_⟩
  · intro h1 h2 h3
    have h1' : dict_get kvs1 ['e', 'r', 'r', 'o', 'r'] =
      some (PyVal.dict ekvs1) := h1
    have h2' : dict_get ekvs1 ['m', 'e', 's', 's', 'a', 'g', 'e'] =
      some (PyVal.str m1) := h2
    simp [_error_message, h1', h2', pyTruthy_str h3]
  · intro h1 h2 h3
    have h1' : dict_get kvs2 ['e', 'r', 'r', 'o', 'r'] =
      Option.none := h1
    have h2' : dict_get kvs2 ['m', 'e', 's', 's', 'a', 'g', 'e'] =
      some (PyVal.str m2) := h2
    simp [_error_message, h1', h2', pyTruthy_str h3]
  · intro h
    cases v with
    | dict kvs => exact absurd rfl (h kvs)
    | none => rfl
    | bool b => rfl
    | int n => rfl
    | str s => rfl
    | list xs => rfl
    | tuple xs => rfl
  · intro h1 h2
    have h1' : dict_get kvs4 ['e', 'r', 'r', 'o', 'r'] =
      some (PyVal.dict ekvs4) := h1
    have h2' : dict_get ekvs4 ['m', 'e', 's', 's', 'a', 'g', 'e'] =
      Option.none := h2
    simp [_error_message, h1', h2']
  · intro h1 h2 h3
    have h1' : dict_get kvs5 ['e', 'r', 'r', 'o', 'r'] =
      some (PyVal.dict ekvs5) := h1
    have h2' : dict_get ekvs5 ['m', 'e', 's', 's', 'a', 'g', 'e'] =
      some w5 := h2
    simp [_error_message, h1', h2', h3]
  · intro h1 h2
    have h1' : dict_get kvs6 ['e', 'r', 'r', 'o', 'r'] =
      Option.none := h1
    have h2' : dict_get kvs6 ['m', 'e', 's', 's', 'a', 'g', 'e'] =
      Option.none := h2
    simp [_error_message, h1', h2']
  · intro h1 h2 h3 h4
    have h3' : dict_get kvs7 ['m', 'e', 's', 's', 'a', 'g', 'e'] =
      some (PyVal.str m7) := h3
    cases e7 with
    | dict kv => exact absurd rfl (h2 kv)
    | none =>
      have h1' : dict_get kvs7 ['e', 'r', 'r', 'o', 'r'] =
        some PyVal.none := h1
      simp [_error_message, h1', h3', pyTruthy_str h4]
    | bool b =>
      have h1' : dict_get kvs7 ['e', 'r', 'r', 'o', 'r'] =
        some (PyVal.bool b) := h1
      simp [_error_message, h1', h3', pyTruthy_str h4]
    | int n =>
      have h1' : dict_get kvs7 ['e', 'r', 'r', 'o', 'r'] =
        some (PyVal.int n) := h1
      simp [_error_message, h1', h3', pyTruthy_str h4]
    | str s =>
      have h1' : dict_get kvs7 ['e', 'r', 'r', 'o', 'r'] =
        some (PyVal.str s) := h1
      simp [_error_message, h1', h3', pyTruthy_str h4]
    | list xs =>
      have h1' : dict_get kvs7 ['e', 'r', 'r', 'o', 'r'] =
        some (PyVal.list xs) := h1
      simp [_error_message, h1', h3', pyTruthy_str h4]
    | tuple xs =>
      have h1' : dict_get kvs7 ['e', 'r', 'r', 'o', 'r'] =
        some (PyVal.tuple xs) := h1
      simp [_error_message, h1', h3', pyTruthy_str h4]
  · intro ht
    simp only [NPMClient_request, headers_with_token ht]
    rfl

/-- Witness for C6 (corrected) exercising every leg: nested truthy message,
top-level message, non-mapping body, nested error object without or with a
falsy message, mapping with neither field, non-dict error value, and the
concrete 404 response. -/
theorem api_error_message_amended_witness :
    _error_message (.dict [("error".toList,
        .dict [("message".toList, .str "Host not found".toList)])]) =
      .str "Host not found".toList ∧
    _error_message (.dict [("message".toList, .str "bad request".toList)]) =
      .str "bad request".toList ∧
    _error_message (.int 7) = .str (pyStr (.int 7)) ∧
    _error_message (.dict [("error".toList, .dict []),
        ("message".toList, .str "top".toList)]) =
      .str (pyStr (.dict ([] : List (Str × PyVal)))) ∧
    _error_message (.dict [("error".toList,
        .dict [("message".toList, .str "".toList)])]) =
      .str (pyStr (.dict [("message".toList, .str "".toList)])) ∧
    _error_message (.dict [("status".toList, .int 500)]) =
      .str (pyStr (.dict [("status".toList, .int 500)])) ∧
    _error_message (.dict [("error".toList, .str "oops".toList),
        ("message".toList, .str "top2".toList)]) =
      .str "top2".toList ∧
    apiMessage (NPMClient_request false "http://npm".toList
      (some "tok123".toList) "POST".toList "/nginx/proxy-hosts".toList
      Option.none true (.ok ⟨404, [],
        "\x7b\"error\": \x7b\"message\": \"Host not found\"\x7d\x7d".toList⟩)).1 =
      some "Host not found".toList := by
  have h := api_error_message_amended
    [("error".toList, .dict [("message".toList, .str "Host not found".toList)])]
    [("message".toList, .str "Host not found".toList)]
    [("message".toList, .str "bad request".toList)]
    [("error".toList, .dict []), ("message".toList, .str "top".toList)] []
    [("error".toList, .dict [("message".toList, .str "".toList)])]
    [("message".toList, .str "".toList)]
    [("status".toList, .int 500)]
    [("error".toList, .str "oops".toList), ("message".toList, .str "top2".toList)]
    "Host not found".toList "bad request".toList "top2".toList
    (.int 7) (.str "".toList) (.str "oops".toList)
    false "http://npm".toList "POST".toList "/nginx/proxy-hosts".toList
    Option.none "tok123".toList
  exact ⟨h.1 (by rfl) (by rfl) (by decide),
         h.2.1 (by rfl) (by rfl) (by decide),
         h.2.2.1 (fun _ hq => PyVal.noConfusion hq),
         h.2.2.2.1 (by rfl) (by rfl),
         h.2.2.2.2.1 (by rfl) (by rfl) (by decide),
         h.2.2.2.2.2.1 (by rfl) (by rfl),
         h.2.2.2.2.2.2.1 (by rfl) (fun _ hq => PyVal.noConfusion hq)
           (by rfl) (by decide),
         h.2.2.2.2.2.2.2 (by decide)⟩

/-! ## Resolver helper lemmas -/

theorem pyOr_some_str {A : Str} (hA : A ≠ []) (b : Option PyVal) :
    pyOr (some (.str A)) b = some (.str A) := by
  simp [pyOr, optTruthy, pyTruthy_str hA]

theorem pyOr_none_left (b : Option PyVal) : pyOr Option.none b = b := rfl

theorem optTruthy_some_str {A : Str} (hA : A ≠ []) :
    optTruthy (some (.str A)) = true := by
  simp [optTruthy, pyTruthy_str hA]

theorem dict_get_login_base (C TC : Str) :
    dict_get [("base_url".toList, PyVal.str C), ("token".toList, PyVal.str TC)]
      "base_url".toList = some (.str C) := by
  simp [dict_get]

theorem dict_get_login_token (C TC : Str) :
    dict_get [("base_url".toList, PyVal.str C), ("token".toList, PyVal.str TC)]
      "token".toList = some (.str TC) := by
  simp +decide [dict_get]

theorem dict_get_only_base (C : Str) :
    dict_get [("base_url".toList, PyVal.str C)] "base_url".toList =
      some (.str C) := by
  simp [dict_get]

theorem dict_get_only_base_token (C : Str) :
    dict_get [("base_url".toList, PyVal.str C)] "token".toList =
      Option.none := by
  simp +decide [dict_get]

theorem dict_get_nil (key : Str) :
    dict_get ([] : List (Str × PyVal)) key = Option.none := rfl

theorem load_keyring_error (m : Str) (leg : VaultRead) :
    _load_keyring_login_info true (.error m) leg = [] := rfl

theorem load_keyring_unavailable (curr leg : VaultRead) :
    _load_keyring_login_info false curr leg = [] := rfl

theorem load_keyring_absent :
    _load_keyring_login_info true (.ok Option.none) (.ok Option.none) = [] := rfl

theorem get_secret_current_hit {raw : Str} (h : raw ≠ []) (leg : VaultRead) :
    get_secret true (.ok (some raw)) leg = .ok (some raw) := by
  simp [get_secret, strOptTruthy, isEmpty_false_of_ne h]

/-- Resolution when both explicit values are set and non-empty: the
explicit values win whatever the other sources hold. -/
theorem resolve_explicit {A TA : Str} (hA : A ≠ []) (hTA : TA ≠ [])
    (rt : Bool) (nb nt : Option Str) (ka : Bool) (curr leg : VaultRead)
    (l1 l2 : Option Str) :
    resolve_base_url_and_token (some A) (some TA) rt nb nt ka curr leg l1 l2 =
      .ok (.str A, some (.str TA)) := by
  simp only [resolve_base_url_and_token, Option.map_some', pyOr_some_str hA,
    pyOr_some_str hTA]
  simp [pyTruthy_str hA, optTruthy_some_str hTA]

/-- Claim C1: base URL and token are each resolved first-non-empty-wins
over explicit argument, environment variable, vault login record and legacy
file config; if no source yields a base URL the call fails with the
missing-base-URL error, and with `require_token` set and no source yielding
a token it fails with the missing-token error. -/
theorem resolve_precedence
    (A TA B TB C TC D TD : Str) (rt : Bool)
    (ka : Bool) (curr leg : VaultRead) (l1 l2 : Option Str)
    (ka0 : Bool) (curr0 leg0 : VaultRead)
    (ka5 : Bool) (curr5 leg5 : VaultRead) (l15 l25 : Option Str)
    (ka6 : Bool) (curr6 leg6 : VaultRead) (l16 l26 : Option Str)
    (kvs5K kvs5L kvs6K kvs6L : List (Str × PyVal))
    (hA : A ≠ []) (hTA : TA ≠ []) (hB : B ≠ []) (hTB : TB ≠ [])
    (hC : C ≠ []) (hTC : TC ≠ []) (hD : D ≠ []) (hTD : TD ≠ [])
    (hk : _load_keyring_login_info ka curr leg =
      [("base_url".toList, .str C), ("token".toList, .str TC)])
    (hl : _load_legacy_login_info l1 l2 =
      [("base_url".toList, .str D), ("token".toList, .str TD)])
    (hk0 : _load_keyring_login_info ka0 curr0 leg0 = [])
    (hk5 : _load_keyring_login_info ka5 curr5 leg5 = kvs5K)
    (hl5 : _load_legacy_login_info l15 l25 = kvs5L)
    (hb5K : dict_get kvs5K "base_url".toList = Option.none)
    (hb5L : dict_get kvs5L "base_url".toList = Option.none)
    (hk6 : _load_keyring_login_info ka6 curr6 leg6 = kvs6K)
    (hl6 : _load_legacy_login_info l16 l26 = kvs6L)
    (hb6 : dict_get kvs6K "base_url".toList = some (.str C))
    (ht6K : dict_get kvs6K "token".toList = Option.none)
    (ht6L : dict_get kvs6L "token".toList = Option.none) :
    (resolve_base_url_and_token (some A) (some TA) rt (some B) (some TB)
      ka curr leg l1 l2 = .ok (.str A, some (.str TA))) ∧
    (resolve_base_url_and_token Option.none Option.none rt (some B) (some TB)
      ka curr leg l1 l2 = .ok (.str B, some (.str TB))) ∧
    (resolve_base_url_and_token Option.none Option.none rt Option.none
      Option.none ka curr leg l1 l2 = .ok (.str C, some (.str TC))) ∧
    (resolve_base_url_and_token Option.none Option.none rt Option.none
      Option.none ka0 curr0 leg0 l1 l2 = .ok (.str D, some (.str TD))) ∧
    (resolve_base_url_and_token Option.none Option.none rt Option.none
      Option.none ka5 curr5 leg5 l15 l25 = .error .missingBaseUrl) ∧
    (resolve_base_url_and_token Option.none Option.none true Option.none
      Option.none ka6 curr6 leg6 l16 l26 = .error .missingToken) := by
  refine ⟨?_, ?_, ?_, ?_, ?_, ?_⟩
  · exact resolve_explicit hA hTA rt (some B) (some TB) ka curr leg l1 l2
  · simp only [resolve_base_url_and_token, Option.map_some', Option.map_none',
      pyOr_none_left, pyOr_some_str hB, pyOr_some_str hTB]
    simp [pyTruthy_str hB, optTruthy_some_str hTB]
  · simp only [resolve_base_url_and_token, Option.map_none', pyOr_none_left,
      hk, dict_get_login_base, dict_get_login_token, pyOr_some_str hC,
      pyOr_some_str hTC]
    simp [pyTruthy_str hC, optTruthy_some_str hTC]
  · simp only [resolve_base_url_and_token, Option.map_none', pyOr_none_left,
      hk0, hl, dict_get_nil, dict_get_login_base, dict_get_login_token,
      pyOr_some_str hD, pyOr_some_str hTD]
    simp [pyTruthy_str hD, optTruthy_some_str hTD]
  · simp only [resolve_base_url_and_token, Option.map_none', pyOr_none_left,
      hk5, hl5, hb5K, hb5L]
  · simp only [resolve_base_url_and_token, Option.map_none', pyOr_none_left,
      hk6, hl6, hb6, ht6K, ht6L, pyOr_some_str hC]
    simp [pyTruthy_str hC, optTruthy]

/-- Witness for C1 with concrete sources: vault record stored as JSON in
the keyring, legacy record as a JSON file. -/
theorem resolve_precedence_witness :
    (resolve_base_url_and_token (some "a".toList) (some "ta".toList) true
      (some "b".toList) (some "tb".toList) true
      (.ok (some "\x7b\"base_url\": \"c\", \"token\": \"tc\"\x7d".toList))
      (.ok Option.none)
      (some "\x7b\"base_url\": \"d\", \"token\": \"td\"\x7d".toList)
      Option.none = .ok (.str "a".toList, some (.str "ta".toList))) ∧
    (resolve_base_url_and_token Option.none Option.none true
      (some "b".toList) (some "tb".toList) true
      (.ok (some "\x7b\"base_url\": \"c\", \"token\": \"tc\"\x7d".toList))
      (.ok Option.none)
      (some "\x7b\"base_url\": \"d\", \"token\": \"td\"\x7d".toList)
      Option.none = .ok (.str "b".toList, some (.str "tb".toList))) ∧
    (resolve_base_url_and_token Option.none Option.none true
      Option.none Option.none true
      (.ok (some "\x7b\"base_url\": \"c\", \"token\": \"tc\"\x7d".toList))
      (.ok Option.none)
      (some "\x7b\"base_url\": \"d\", \"token\": \"td\"\x7d".toList)
      Option.none = .ok (.str "c".toList, some (.str "tc".toList))) ∧
    (resolve_base_url_and_token Option.none Option.none true
      Option.none Option.none true (.ok Option.none) (.ok Option.none)
      (some "\x7b\"base_url\": \"d\", \"token\": \"td\"\x7d".toList)
      Option.none = .ok (.str "d".toList, some (.str "td".toList))) ∧
    (resolve_base_url_and_token Option.none Option.none true
      Option.none Option.none true (.ok Option.none) (.ok Option.none)
      Option.none Option.none = .error .missingBaseUrl) ∧
    (resolve_base_url_and_token Option.none Option.none true
      Option.none Option.none true
      (.ok (some "\x7b\"base_url\": \"c\"\x7d".toList)) (.ok Option.none)
      Option.none Option.none = .error .missingToken) :=
  resolve_precedence "a".toList "ta".toList "b".toList "tb".toList
    "c".toList "tc".toList "d".toList "td".toList true
    true (.ok (some "\x7b\"base_url\": \"c\", \"token\": \"tc\"\x7d".toList))
    (.ok Option.none)
    (some "\x7b\"base_url\": \"d\", \"token\": \"td\"\x7d".toList) Option.none
    true (.ok Option.none) (.ok Option.none)
    true (.ok Option.none) (.ok Option.none) Option.none Option.none
    true (.ok (some "\x7b\"base_url\": \"c\"\x7d".toList)) (.ok Option.none)
    Option.none Option.none
    [] [] [("base_url".toList, .str "c".toList)] []
    (by decide) (by decide) (by decide) (by decide) (by decide) (by decide)
    (by decide) (by decide) (by rfl) (by rfl) (by rfl) (by rfl) (by rfl)
    (by rfl) (by rfl) (by rfl) (by rfl) (by rfl) (by rfl) (by rfl)
/-- Claim C10: a typed secret-store failure while reading the vault login
record (including vault-backend-unavailable) is treated as an empty vault
source — resolution behaves exactly as with an absent record and succeeds
whenever the remaining sources supply the values; a malformed or non-object
stored record is no data, never an error. -/
theorem resolve_vault_error_ignored
    (m : Str) (eb et : Option Str) (rt : Bool) (nb nt : Option Str)
    (leg curr2 leg2 : VaultRead) (l1 l2 : Option Str)
    (raw1 raw2 : Str) (w : PyVal) (A2 TA2 : Str) :
    (resolve_base_url_and_token eb et rt nb nt true (.error m) leg l1 l2 =
      resolve_base_url_and_token eb et rt nb nt true (.ok Option.none)
        (.ok Option.none) l1 l2) ∧
    (resolve_base_url_and_token eb et rt nb nt false curr2 leg2 l1 l2 =
      resolve_base_url_and_token eb et rt nb nt true (.ok Option.none)
        (.ok Option.none) l1 l2) ∧
    (jsonLoads raw1 = Option.none →
      get_login_info true (.ok (some raw1)) (.ok Option.none) = .ok []) ∧
    (jsonLoads raw2 = some w → (∀ kvs', w ≠ .dict kvs') →
      get_login_info true (.ok (some raw2)) (.ok Option.none) = .ok []) ∧
    (A2 ≠ [] → TA2 ≠ [] →
      resolve_base_url_and_token (some A2) (some TA2) rt nb nt true
        (.error m) leg l1 l2 = .ok (.str A2, some (.str TA2))) := by
  refine ⟨?_, ?_, ?_, ?_, ?_⟩
  · simp only [resolve_base_url_and_token, load_keyring_error,
      load_keyring_absent]
  · simp only [resolve_base_url_and_token, load_keyring_unavailable,
      load_keyring_absent]
  · intro hj
    by_cases hr : raw1 = []
    · subst hr; rfl
    · simp only [get_login_info, get_secret_current_hit hr]
      simp [hr, hj]
  · intro hj hw
    by_cases hr : raw2 = []
    · subst hr
      rw [show jsonLoads [] = Option.none from rfl] at hj
      exact Option.noConfusion hj
    · simp only [get_login_info, get_secret_current_hit hr]
      cases w with
      | dict kvs => exact absurd rfl (hw kvs)
      | none => simp [hr, hj]
      | bool b => simp [hr, hj]
      | int n => simp [hr, hj]
      | str s => simp [hr, hj]
      | list xs => simp [hr, hj]
      | tuple xs => simp [hr, hj]
  · intro hA hTA
    exact resolve_explicit hA hTA rt nb nt true (.error m) leg l1 l2

/-- Witness for C10: an erroring vault backend with explicit credentials
still resolves; malformed and non-object records load as no data. -/
theorem resolve_vault_error_ignored_witness :
    (resolve_base_url_and_token (some "a".toList) (some "ta".toList) true
      Option.none Option.none true
      (.error "no recommended backend was available".toList)
      (.ok Option.none) Option.none Option.none =
      resolve_base_url_and_token (some "a".toList) (some "ta".toList) true
        Option.none Option.none true (.ok Option.none) (.ok Option.none)
        Option.none Option.none) ∧
    (get_login_info true (.ok (some "not json".toList)) (.ok Option.none) =
      .ok []) ∧
    (get_login_info true (.ok (some "[1, 2]".toList)) (.ok Option.none) =
      .ok []) ∧
    (resolve_base_url_and_token (some "a".toList) (some "ta".toList) true
      Option.none Option.none true
      (.error "no recommended backend was available".toList)
      (.ok Option.none) Option.none Option.none =
      .ok (.str "a".toList, some (.str "ta".toList))) := by
  have h := resolve_vault_error_ignored
    "no recommended backend was available".toList
    (some "a".toList) (some "ta".toList) true Option.none Option.none
    (.ok Option.none) (.ok Option.none) (.ok Option.none)
    Option.none Option.none
    "not json".toList "[1, 2]".toList (.list [.int 1, .int 2])
    "a".toList "ta".toList
  exact ⟨h.1, h.2.2.1 (by rfl),
    h.2.2.2.1 (by rfl) (fun _ hq => PyVal.noConfusion hq),
    h.2.2.2.2 (by decide) (by decide)⟩

end NpmCtl
